import Mathlib

/-!
Shallow embedding of the Recruitment-Email-Agent core
(src/ollama_client.py, src/email_agent.py, src/utils.py, src/config_manager.py).

Python strings are modelled as Lean `String` / `List Char` (both are sequences
of unicode code points, matching Python `len` and slicing semantics).
Optional Python arguments are `Option String`; Python truthiness of a string
option (`if x:`) is `pyTruthyStr` (None and the empty string are falsy).
HTTP calls performed with the `requests` library are modelled by `ReqOutcome`:
`reqError` covers every `requests.exceptions.RequestException` (connection
error, timeout); `response status body` is an HTTP reply whose JSON body
either parsed as JSON (`some`) or was not valid JSON (`none`).
`response.json()` on a body that is not valid JSON raises
`requests.exceptions.JSONDecodeError`, a `RequestException` subclass, which is
what the handlers in the source catch.  A tags body that IS valid JSON is a
list of model entries each of which may or may not carry a `name` field
(`Option String`); subscripting an entry without the field
(`model['name']`) raises `KeyError`, which no handler in
src/ollama_client.py catches, so fallible functions return `Except String`
with `.error` standing for an uncaught Python exception.
-/

/-- The apostrophe character (written via its code point). -/
def squote : Char := Char.ofNat 39

/-- The apostrophe as a one-character string (`sq` is taken by Mathlib). -/
def apos : String := String.mk [squote]

/-- The whitespace characters stripped by Python `str.strip()`. -/
def pyWhitespace (c : Char) : Bool :=
  c == ' ' || c == '\t' || c == '\n' || c == '\r' || c == Char.ofNat 11 || c == Char.ofNat 12

/-- Python `str.strip()` on a list of characters. -/
def pyStrip (l : List Char) : List Char :=
  ((l.dropWhile pyWhitespace).reverse.dropWhile pyWhitespace).reverse

/-- Python `str.strip()` on a string. -/
def pyStripS (s : String) : String := String.mk (pyStrip s.toList)

/-- Python truthiness of an optional string: `None` and `""` are falsy. -/
def pyTruthyStr : Option String → Bool
  | none => false
  | some s => s != ""

/-- Python `x or d` for an optional string `x` and default `d`. -/
def pyOrDefault (o : Option String) (d : String) : String :=
  match o with
  | none => d
  | some s => if s = "" then d else s

/-- Python substring test `needle in hay` on character lists. -/
def hasSub (needle : List Char) : List Char → Bool
  | [] => needle.isEmpty
  | c :: t => (needle == (c :: t).take needle.length) || hasSub needle t

/-- Outcome of one HTTP request made with `requests`:
`reqError` is any `RequestException` (connection refused, timeout, ...);
`response status body` carries the status code and the JSON-parse result of
the body (`none` = malformed body). -/
inductive ReqOutcome (α : Type) where
  | reqError : ReqOutcome α
  | response (status : Nat) (body : Option α) : ReqOutcome α
deriving DecidableEq

/-- Python `str(KeyError(k))`, which is the missing key wrapped in
apostrophes. -/
def keyErrorStr (k : String) : String := apos ++ k ++ apos

/-- `OllamaClient.is_ollama_running` (src/ollama_client.py:17-23): GET the
tags URL; running iff status 200; any `RequestException` gives `False`.
The body is not parsed here. -/
def is_ollama_running (tags : ReqOutcome (List (Option String))) : Bool :=
  match tags with
  | .reqError => false
  | .response status _ => status == 200

/-- The list comprehension `[model['name'] for model in models]`
(src/ollama_client.py:33 and 45): subscripting stops at the first entry
without a `name` field, raising `KeyError('name')` — modelled as `none`. -/
def collectNames : List (Option String) → Option (List String)
  | [] => some []
  | none :: _ => none
  | some n :: rest =>
    match collectNames rest with
    | none => none
    | some ns => some (n :: ns)

/-- `OllamaClient.is_model_available` (src/ollama_client.py:25-37): GET the
tags URL; on status 200 parse the body (a body that is not valid JSON
raises `requests.exceptions.JSONDecodeError`, caught by the
`RequestException` handler, hence `.ok false`), collect `model['name']` for
each entry — `KeyError` from an entry without the field is NOT caught by
the `RequestException` handler and escapes (`.error`) — then take each name
up to the first colon and test membership of the configured model name. -/
def is_model_available (model_name : String)
    (tags : ReqOutcome (List (Option String))) : Except String Bool :=
  match tags with
  | .reqError => .ok false
  | .response status body =>
    if status == 200 then
      match body with
      | none => .ok false
      | some entries =>
        match collectNames entries with
        | none => .error (keyErrorStr "name")
        | some names =>
          .ok ((names.map (fun n => (n.splitOn ":").headD "")).contains model_name)
    else .ok false

/-- `OllamaClient.get_available_models` (src/ollama_client.py:39-48): same
GET and the same uncaught-`KeyError` exposure as `is_model_available`, but
returning the full names. -/
def get_available_models (tags : ReqOutcome (List (Option String))) :
    Except String (List String) :=
  match tags with
  | .reqError => .ok []
  | .response status body =>
    if status == 200 then
      match body with
      | none => .ok []
      | some entries =>
        match collectNames entries with
        | none => .error (keyErrorStr "name")
        | some names => .ok names
    else .ok []

/-- A tags reply on which the source's `model['name']` subscripting raises:
a 200 response whose body is valid JSON but has a model entry without a
`name` field. -/
def tagsBodyMissingName : ReqOutcome (List (Option String)) → Bool
  | .reqError => false
  | .response status body =>
    status == 200 &&
      (match body with
       | none => false
       | some entries => (collectNames entries).isNone)

/-- The ellipsis appended by `_clean_subject` when truncating. -/
def ellipsis : List Char := ['.', '.', '.']

/-- The cleaning pipeline of `OllamaClient._clean_subject`
(src/ollama_client.py:154-172) before the final length truncation:
strip, drop double quotes and apostrophes, map CR/LF to spaces, and drop a
leading case-insensitive `subject:` label (8 characters) re-stripping after. -/
def clean_core (l : List Char) : List Char :=
  let l1 := pyStrip l
  let l2 := l1.filter (fun c => !(c == '"' || c == squote))
  let l3 := l2.map (fun c => if c == '\n' || c == '\r' then ' ' else c)
  if (l3.map Char.toLower).take 8 = "subject:".toList then pyStrip (l3.drop 8) else l3

/-- `OllamaClient._clean_subject` (src/ollama_client.py:154-172): empty input
returns `""`; otherwise clean, and if the result exceeds 80 characters keep
the first 77 and append `"..."`. -/
def clean_subject (s : String) : String :=
  if s = "" then ""
  else
    let c := clean_core s.toList
    if 80 < c.length then String.mk (c.take 77 ++ ellipsis) else String.mk c

/-- The disqualifying markers of `OllamaClient._is_valid_subject`
(src/ollama_client.py:180-184). -/
def bad_indicators : List String :=
  ["i cannot", "i can" ++ apos ++ "t", "as an ai", "sorry",
   "inappropriate", "unable to", "```", "here is",
   "here" ++ apos ++ "s a", "here are"]

/-- `OllamaClient._is_valid_subject` (src/ollama_client.py:174-187): reject
the empty string and strings whose stripped form is shorter than 5
characters, and any subject containing (case-insensitively) one of the
disqualifying markers. -/
def is_valid_subject (s : String) : Bool :=
  if s = "" || (pyStrip s.toList).length < 5 then false
  else
    let low := s.toList.map Char.toLower
    !(bad_indicators.any (fun b => hasSub b.toList low))

/-- `OllamaClient._default_subject` (src/ollama_client.py:189-194): the
deterministic fallback subject; the company branch is taken when the company
option is truthy (present and non-empty) and not the generic default. -/
def default_subject (sender_name : String) (company_name : Option String) : String :=
  if pyTruthyStr company_name && (company_name.getD "") != "your organization" then
    "Application for Position at " ++ company_name.getD "" ++ " - " ++ sender_name
  else
    "Software Engineer Application - " ++ sender_name

/-- One call's worth of behavior of the text-generation HTTP service:
the tags GET issued by `is_ollama_running`, the tags GET issued by
`is_model_available`, the tags GET issued by `get_available_models` on the
model-missing path, and the generation POST. The POST body's parsed shape
is the `response` field (an absent field is read as `""` by
`result.get('response', '')`). -/
structure OllamaBehavior where
  tagsRun : ReqOutcome (List (Option String))
  tagsModel : ReqOutcome (List (Option String))
  tagsList : ReqOutcome (List (Option String))
  gen : ReqOutcome String
deriving DecidableEq

/-- `OllamaClient.generate_subject_line` (src/ollama_client.py:50-115):
probe the service, probe the model, POST the generation request; on a 200
reply strip and clean the `response` field and keep it if valid; the
fallback is returned when the service is down, the model is missing, or the
generation POST raises a `RequestException`, times out, returns a non-200
status, a malformed body, or an invalid cleaned subject.  The probe calls
at lines 56 and 61 and the `get_available_models` call at line 63 sit
OUTSIDE the `try` that begins at line 72, so an uncaught `KeyError` from a
wrong-shaped tags body propagates out of the method (`.error`); the
generation POST itself is wrapped by handlers ending in `except Exception`,
so nothing escapes from it. -/
def generate_subject_line (b : OllamaBehavior) (model : String)
    (recipient_name company_name : Option String) (sender_name : String) :
    Except String String :=
  if !(is_ollama_running b.tagsRun) then .ok (default_subject sender_name company_name)
  else
    match is_model_available model b.tagsModel with
    | .error e => .error e
    | .ok avail =>
      if !avail then
        match get_available_models b.tagsList with
        | .error e => .error e
        | .ok _ => .ok (default_subject sender_name company_name)
      else
        match b.gen with
        | .reqError => .ok (default_subject sender_name company_name)
        | .response status body =>
          if status == 200 then
            match body with
            | none => .ok (default_subject sender_name company_name)
            | some raw =>
              let subject := clean_subject (pyStripS raw)
              if is_valid_subject subject then .ok subject
              else .ok (default_subject sender_name company_name)
          else .ok (default_subject sender_name company_name)

/-! ## Template rendering (`str.format` with keyword arguments)

The spec's non-goal list limits templates to simple placeholder substitution,
so a template is embedded in parsed form: a sequence of literal pieces and
placeholder fields.  `template.format(**ctx)` substitutes left to right and
raises `KeyError(k)` at the first field `k` absent from the keyword
arguments; this is the renderer's `.error k` result. -/

/-- One piece of a template: a literal run of text or a `{key}` field. -/
inductive TmplPart where
  | lit (s : String) : TmplPart
  | ph (key : String) : TmplPart
deriving DecidableEq

/-- The placeholder keys occurring in a template. -/
def phKeys (parts : List TmplPart) : List String :=
  parts.filterMap (fun p => match p with | .lit _ => none | .ph k => some k)

/-- `template.format(**ctx)` (used at src/email_agent.py:153-164): substitute
fields left to right; the first field missing from `ctx` raises
`KeyError`, modelled as `.error key`. -/
def renderTemplate (parts : List TmplPart) (ctx : List (String × String)) :
    Except String String :=
  match parts with
  | [] => .ok ""
  | .lit s :: rest =>
    match renderTemplate rest ctx with
    | .error k => .error k
    | .ok r => .ok (s ++ r)
  | .ph k :: rest =>
    match List.lookup k ctx with
    | none => .error k
    | some v =>
      match renderTemplate rest ctx with
      | .error k2 => .error k2
      | .ok r => .ok (v ++ r)

/-! ## SMTP delivery (`RecruitmentEmailAgent._send_via_smtp`) -/

/-- Result of `server.login` (src/email_agent.py:93): success,
`SMTPAuthenticationError`, or some other exception. -/
inductive LoginRes where
  | ok : LoginRes
  | authError : LoginRes
  | otherError : LoginRes
deriving DecidableEq

/-- Result of `server.send_message` (src/email_agent.py:96): success,
`SMTPRecipientsRefused`, `SMTPServerDisconnected`, or some other
exception. -/
inductive SendRes where
  | ok : SendRes
  | recipientsRefused : SendRes
  | serverDisconnected : SendRes
  | otherError : SendRes
deriving DecidableEq

/-- The behavior of the SMTP server across the steps of one
`_send_via_smtp` call: whether the `smtplib.SMTP` constructor, `starttls`,
`login`, `send_message` and `quit` steps succeed or raise. -/
structure SmtpSession where
  connectOk : Bool
  starttlsOk : Bool
  login : LoginRes
  send : SendRes
  quitOk : Bool
deriving DecidableEq

/-- Console diagnostics printed by `_send_via_smtp`'s handlers. -/
def authFailedMsg : String := "Gmail authentication failed!"

/-- Console diagnostic printed by the `SMTPRecipientsRefused` handler
(src/email_agent.py:108). -/
def recipientRejectedMsg : String := "Recipient email address rejected by server!"

/-- Console diagnostic printed by the `SMTPServerDisconnected` handler. -/
def disconnectedMsg : String := "SMTP server disconnected unexpectedly!"

/-- Console diagnostic printed by the generic `Exception` handler. -/
def smtpErrorMsg : String := "SMTP error"

/-- Observable outcome of one `_send_via_smtp` call: the returned boolean,
how many SMTP connection attempts were made, whether a connection was
established, whether it was closed (`server.quit()` completed) before
returning, and the diagnostics printed. -/
structure SmtpOutcome where
  success : Bool
  connectAttempts : Nat
  connected : Bool
  closed : Bool
  console : List String
deriving DecidableEq

/-- `RecruitmentEmailAgent._send_via_smtp` (src/email_agent.py:83-117): one
`smtplib.SMTP` connection attempt, then `starttls`, `login`,
`send_message`, `quit`.  Each exception handler prints a diagnostic and
returns `False`; none of the handlers calls `server.quit()`, so the
connection is only closed on the path where every step succeeds. -/
def send_via_smtp (s : SmtpSession) : SmtpOutcome :=
  if !s.connectOk then
    { success := false, connectAttempts := 1, connected := false, closed := false,
      console := [smtpErrorMsg] }
  else if !s.starttlsOk then
    { success := false, connectAttempts := 1, connected := true, closed := false,
      console := [smtpErrorMsg] }
  else
    match s.login with
    | .authError =>
      { success := false, connectAttempts := 1, connected := true, closed := false,
        console := [authFailedMsg] }
    | .otherError =>
      { success := false, connectAttempts := 1, connected := true, closed := false,
        console := [smtpErrorMsg] }
    | .ok =>
      match s.send with
      | .recipientsRefused =>
        { success := false, connectAttempts := 1, connected := true, closed := false,
          console := [recipientRejectedMsg] }
      | .serverDisconnected =>
        { success := false, connectAttempts := 1, connected := true, closed := false,
          console := [disconnectedMsg] }
      | .otherError =>
        { success := false, connectAttempts := 1, connected := true, closed := false,
          console := [smtpErrorMsg] }
      | .ok =>
        if s.quitOk then
          { success := true, connectAttempts := 1, connected := true, closed := true,
            console := [] }
        else
          { success := false, connectAttempts := 1, connected := true, closed := false,
            console := [smtpErrorMsg] }

/-! ## Activity logging (`utils.log_email_activity`, `utils.show_recent_emails`) -/

/-- One persisted activity record (the `log_entry` dict built at
src/utils.py:110-117). -/
structure ActivityRecord where
  timestamp : String
  recipient : String
  company : String
  subject : String
  success : Bool
  error : Option String
deriving DecidableEq

/-- The state of the activity-log file: absent, present but not valid JSON,
or a parsed JSON array of records. -/
inductive LogFileState where
  | absent : LogFileState
  | corrupt : LogFileState
  | content (l : List ActivityRecord) : LogFileState
deriving DecidableEq

/-- The arguments of one `log_email_activity` call, plus the
`datetime.now().isoformat()` timestamp observed during the call. -/
structure LogCall where
  now : String
  recipient : String
  company : Option String
  subject : String
  success : Bool
  error_msg : Option String
deriving DecidableEq

/-- The record that `log_email_activity` builds from its arguments
(src/utils.py:110-117): the company defaults to `"Not specified"` via
`company_name or "Not specified"`. -/
def entryOf (c : LogCall) : ActivityRecord :=
  { timestamp := c.now, recipient := c.recipient,
    company := pyOrDefault c.company "Not specified",
    subject := c.subject, success := c.success, error := c.error_msg }

/-- `utils.log_email_activity` (src/utils.py:107-134): read the whole log
(an absent file, or a `json.JSONDecodeError` while parsing it, yields the
empty list), append the new record, rewrite the file.  A failed rewrite
(`writeOk = false`) leaves the file as it was and only prints a warning;
the returned boolean is whether that warning was printed.  The function is
total: no path raises. -/
def log_email_activity (st : LogFileState) (writeOk : Bool) (c : LogCall) :
    LogFileState × Bool :=
  let logs := match st with
    | .absent => []
    | .corrupt => []
    | .content l => l
  if writeOk then (.content (logs ++ [entryOf c]), false) else (st, true)

/-- Reading the log back in full (`utils.show_recent_emails`,
src/utils.py:136-169, reads the whole array with `json.load` before
slicing): `none` when the file is absent or unparsable. -/
def readLog : LogFileState → Option (List ActivityRecord)
  | .absent => none
  | .corrupt => none
  | .content l => some l

/-- Appending a sequence of records by repeated `log_email_activity` calls,
each write succeeding. -/
def appendAll (st : LogFileState) (cs : List LogCall) : LogFileState :=
  cs.foldl (fun s c => (log_email_activity s true c).1) st

/-! ## The send pipeline (`RecruitmentEmailAgent.send_recruitment_email`) -/

/-- The loaded configuration dict (src/config_manager.py:113-120) restricted
to the keys the send pipeline reads; `template_preference` is read with
`config.get`, hence optional. -/
structure Config where
  sender_email : String
  sender_password : String
  sender_name : String
  email_template : List TmplPart
  template_preference : Option String
deriving DecidableEq

/-- Result of opening and reading the resume file inside
`_create_email_message` (src/email_agent.py:63-79): read `ok`,
`FileNotFoundError`, or some other exception (re-raised after printing). -/
inductive AttachRes where
  | ok : AttachRes
  | notFound : AttachRes
  | otherError (msg : String) : AttachRes
deriving DecidableEq

/-- The composed MIME message (`_create_email_message`,
src/email_agent.py:44-81): headers, subject, body and attachment name. -/
structure EmailMessage where
  fromHeader : String
  toHeader : String
  subject : String
  bcc : Option String
  body : String
  attachmentName : String
deriving DecidableEq

/-- The external world for one `send_recruitment_email` call: the
generation service's behavior, the resume-read result, the SMTP server's
behavior, the clock value used for the log timestamp, and whether the log
rewrite succeeds. -/
structure SendEnv where
  ollama : OllamaBehavior
  attach : AttachRes
  smtp : SmtpSession
  now : String
  logWriteOk : Bool
deriving DecidableEq

/-- The caller-supplied arguments of `send_recruitment_email`
(src/email_agent.py:119-121). -/
structure SendArgs where
  recipient_email : String
  recipient_name : Option String
  company_name : Option String
  bcc_email : Option String
  resume_name : String
  custom_subject : Option String
deriving DecidableEq

/-- Observable result of one `send_recruitment_email` call: the returned
boolean, the log-file state after the call, the `log_email_activity` calls
made (in order), the number of SMTP connection attempts, and whether the
generation service was consulted. -/
structure SendResult where
  returned : Bool
  logState : LogFileState
  logCalls : List LogCall
  smtpAttempts : Nat
  ollamaUsed : Bool
deriving DecidableEq

/-- The keyword arguments passed to `template.format`
(src/email_agent.py:146-164): names default via `or`, and the
`person_only` preference omits the company key. -/
def renderCtx (config : Config) (a : SendArgs) : List (String × String) :=
  if config.template_preference = some "person_only" then
    [("name", pyOrDefault a.recipient_name "Hiring Manager"),
     ("sender_name", config.sender_name)]
  else
    [("name", pyOrDefault a.recipient_name "Hiring Manager"),
     ("company", pyOrDefault a.company_name "your organization"),
     ("sender_name", config.sender_name)]

/-- Helper: finish a `send_recruitment_email` path that makes exactly one
`log_email_activity` call. -/
def finishWithLog (st : LogFileState) (writeOk : Bool) (c : LogCall)
    (returned : Bool) (smtpAttempts : Nat) (ollamaUsed : Bool) : SendResult :=
  { returned := returned,
    logState := (log_email_activity st writeOk c).1,
    logCalls := [c],
    smtpAttempts := smtpAttempts,
    ollamaUsed := ollamaUsed }

/-- The subject chosen at src/email_agent.py:130-138: the custom subject
when truthy, otherwise the generated one (model `"mistral"`, the
`OllamaClient()` default).  The generator call happens inside the
pipeline's `try`, so an exception it raises (`.error`) lands in the generic
`except Exception` handler below. -/
def sendSubject (config : Config) (env : SendEnv) (a : SendArgs) :
    Except String String :=
  if pyTruthyStr a.custom_subject then .ok (a.custom_subject.getD "")
  else generate_subject_line env.ollama "mistral" a.recipient_name a.company_name
    config.sender_name

/-- `RecruitmentEmailAgent._create_email_message` headers and parts
(src/email_agent.py:44-81) for a successfully read attachment. -/
def composeMessage (config : Config) (a : SendArgs) (subject body : String) :
    EmailMessage :=
  { fromHeader := config.sender_name ++ " <" ++ config.sender_email ++ ">",
    toHeader := a.recipient_email, subject := subject,
    bcc := if pyTruthyStr a.bcc_email then a.bcc_email else none,
    body := body, attachmentName := a.resume_name }

/-- The body of `send_recruitment_email` once a configuration is loaded
(the `try` block and handlers of src/email_agent.py:129-214), in source
order: pick or generate the subject — an exception raised by the generator
lands in the generic `except Exception` handler, which logs
`"Failed - Unexpected Error"` and returns `False`; render the template for
the selected variant — a `KeyError` lands in the same generic handler;
build the message — `FileNotFoundError` from the attachment logs
`"Failed - File Not Found"`, any other attachment error again lands in the
generic handler; otherwise send via SMTP and log the outcome, with error
`None` on success and the string `"SMTP sending failed"` on failure. -/
def send_recruitment_email_body (config : Config) (env : SendEnv) (a : SendArgs)
    (st : LogFileState) : SendResult :=
  match sendSubject config env a with
  | .error e =>
    finishWithLog st env.logWriteOk
      { now := env.now, recipient := a.recipient_email, company := a.company_name,
        subject := "Failed - Unexpected Error", success := false,
        error_msg := some ("Unexpected error: " ++ e) }
      false 0 (!(pyTruthyStr a.custom_subject))
  | .ok subject =>
    match renderTemplate config.email_template (renderCtx config a) with
    | .error k =>
      finishWithLog st env.logWriteOk
        { now := env.now, recipient := a.recipient_email, company := a.company_name,
          subject := "Failed - Unexpected Error", success := false,
          error_msg := some ("Unexpected error: " ++ keyErrorStr k) }
        false 0 (!(pyTruthyStr a.custom_subject))
    | .ok body =>
      match env.attach with
      | .notFound =>
        finishWithLog st env.logWriteOk
          { now := env.now, recipient := a.recipient_email, company := a.company_name,
            subject := "Failed - File Not Found", success := false,
            error_msg := some ("Resume file not found: " ++ a.resume_name) }
          false 0 (!(pyTruthyStr a.custom_subject))
      | .otherError msg =>
        finishWithLog st env.logWriteOk
          { now := env.now, recipient := a.recipient_email, company := a.company_name,
            subject := "Failed - Unexpected Error", success := false,
            error_msg := some ("Unexpected error: " ++ msg) }
          false 0 (!(pyTruthyStr a.custom_subject))
      | .ok =>
        finishWithLog st env.logWriteOk
          { now := env.now, recipient := a.recipient_email, company := a.company_name,
            subject := (composeMessage config a subject body).subject,
            success := (send_via_smtp env.smtp).success,
            error_msg := if (send_via_smtp env.smtp).success then none
              else some "SMTP sending failed" }
          (send_via_smtp env.smtp).success (send_via_smtp env.smtp).connectAttempts
          (!(pyTruthyStr a.custom_subject))

/-- `RecruitmentEmailAgent.send_recruitment_email` (src/email_agent.py:119-214):
bail out returning `False` when no configuration is loaded (no log call, no
network call), otherwise run the pipeline body. -/
def send_recruitment_email (cfg : Option Config) (env : SendEnv) (a : SendArgs)
    (st : LogFileState) : SendResult :=
  match cfg with
  | none =>
    { returned := false, logState := st, logCalls := [], smtpAttempts := 0,
      ollamaUsed := false }
  | some config => send_recruitment_email_body config env a st

/-! ## Concrete fixtures used by witnesses and counterexamples -/

/-- A generation service that is unreachable on every request. -/
def ollamaDown : OllamaBehavior := ⟨.reqError, .reqError, .reqError, .reqError⟩

/-- A generation service whose availability probe answers 200 and whose
model probe answers 200 with the valid-JSON body `{"models": [{}]}` — one
model entry with no `name` field. -/
def ollamaWrongShape : OllamaBehavior :=
  ⟨.response 200 (some []), .response 200 (some [none]), .reqError, .reqError⟩

/-- A configuration fixture: `person_only` preference with a template that
only references the `name` placeholder. -/
def cfg0 : Config :=
  { sender_email := "jane@example.com", sender_password := "pw",
    sender_name := "Jane Doe", email_template := [.lit "Hello ", .ph "name"],
    template_preference := some "person_only" }

/-- A configuration fixture: `person_only` preference whose template text
contains a `{company}` placeholder. -/
def cfgBad : Config :=
  { sender_email := "jane@example.com", sender_password := "pw",
    sender_name := "Jane Doe",
    email_template := [.lit "Hello ", .ph "name", .lit " at ", .ph "company"],
    template_preference := some "person_only" }

/-- Argument fixture: a send with a BCC recipient and no custom subject. -/
def args0 : SendArgs :=
  { recipient_email := "a@b.com", recipient_name := none, company_name := none,
    bcc_email := some "x@y.com", resume_name := "resume.pdf",
    custom_subject := none }

/-- An SMTP session in which the server rejects the recipients. -/
def smtpRR : SmtpSession := ⟨true, true, .ok, .recipientsRefused, true⟩

/-- An SMTP session in which authentication fails. -/
def smtpAuthFail : SmtpSession := ⟨true, true, .authError, .ok, true⟩

/-- Environment fixture: service down, resume readable, recipient rejected
by the SMTP server, log write succeeding. -/
def envRR : SendEnv := ⟨ollamaDown, .ok, smtpRR, "2024-01-01T00:00:00", true⟩

/-- Environment fixture: like `envRR` but with SMTP authentication failing
instead. -/
def envAuth : SendEnv := ⟨ollamaDown, .ok, smtpAuthFail, "2024-01-01T00:00:00", true⟩

/-! ## Helper lemmas -/

/-- A missing key among a template's placeholders forces `renderTemplate`
to fail, and the key it reports is itself missing from the context. -/
theorem renderTemplate_error_of_missing (parts : List TmplPart)
    (ctx : List (String × String)) (k : String)
    (hk : k ∈ phKeys parts) (hnone : List.lookup k ctx = none) :
    ∃ k2, renderTemplate parts ctx = .error k2 ∧ List.lookup k2 ctx = none := by
  induction parts with
  | nil => simp [phKeys] at hk
  | cons p rest ih =>
    cases p with
    | lit s =>
      have hk' : k ∈ phKeys rest := by simpa [phKeys] using hk
      obtain ⟨k2, h1, h2⟩ := ih hk'
      exact ⟨k2, by simp [renderTemplate, h1], h2⟩
    | ph key =>
      cases hkey : List.lookup key ctx with
      | none => exact ⟨key, by simp [renderTemplate, hkey], hkey⟩
      | some v =>
        have hk' : k ∈ phKeys rest := by
          have : k = key ∨ k ∈ phKeys rest := by simpa [phKeys] using hk
          rcases this with h | h
          · subst h; rw [hnone] at hkey; cases hkey
          · exact h
        obtain ⟨k2, h1, h2⟩ := ih hk'
        exact ⟨k2, by simp [renderTemplate, hkey, h1], h2⟩

/-- When every placeholder of a template is supplied, `renderTemplate`
succeeds. -/
theorem renderTemplate_ok_of_supplied (parts : List TmplPart)
    (ctx : List (String × String))
    (h : ∀ k ∈ phKeys parts, (List.lookup k ctx).isSome) :
    ∃ s, renderTemplate parts ctx = .ok s := by
  induction parts with
  | nil => exact ⟨"", rfl⟩
  | cons p rest ih =>
    cases p with
    | lit s =>
      obtain ⟨r, hr⟩ := ih (fun k hk => h k (by simpa [phKeys] using hk))
      exact ⟨s ++ r, by simp [renderTemplate, hr]⟩
    | ph key =>
      have hkey := h key (by simp [phKeys])
      cases hkeq : List.lookup key ctx with
      | none => rw [hkeq] at hkey; cases hkey
      | some v =>
        obtain ⟨r, hr⟩ := ih (fun k hk => h k (List.mem_cons_of_mem _ hk))
        exact ⟨v ++ r, by simp [renderTemplate, hkeq, hr]⟩

/-- `appendAll` on parsed content appends the image of `entryOf`. -/
theorem appendAll_content (l : List ActivityRecord) (cs : List LogCall) :
    appendAll (.content l) cs = .content (l ++ cs.map entryOf) := by
  induction cs generalizing l with
  | nil => simp [appendAll]
  | cons c rest ih =>
    have : appendAll (.content l) (c :: rest)
        = appendAll (.content (l ++ [entryOf c])) rest := rfl
    rw [this, ih]
    simp

/-- A tags reply without a missing `name` field never makes
`is_model_available` raise. -/
theorem is_model_available_ok_of_shape (model : String)
    (tags : ReqOutcome (List (Option String)))
    (h : tagsBodyMissingName tags = false) :
    ∃ bb, is_model_available model tags = .ok bb := by
  cases tags with
  | reqError => exact ⟨false, rfl⟩
  | response status body =>
    cases hs : (status == 200) with
    | false => exact ⟨false, by simp [is_model_available, hs]⟩
    | true =>
      cases body with
      | none => exact ⟨false, by simp [is_model_available, hs]⟩
      | some entries =>
        cases hc : collectNames entries with
        | none =>
          exfalso
          simp [tagsBodyMissingName, hs, hc] at h
        | some ns =>
          exact ⟨(ns.map (fun n => (n.splitOn ":").headD "")).contains model, by
            simp [is_model_available, hs, hc]⟩

/-- `is_model_available` raises only on a 200 tags reply with a model entry
whose `name` field is missing. -/
theorem is_model_available_error_shape (model : String)
    (tags : ReqOutcome (List (Option String))) (e : String)
    (h : is_model_available model tags = .error e) :
    tagsBodyMissingName tags = true := by
  cases hx : tagsBodyMissingName tags with
  | true => rfl
  | false =>
    obtain ⟨bb, hbb⟩ := is_model_available_ok_of_shape model tags hx
    rw [hbb] at h
    exact Except.noConfusion h

/-- A tags reply without a missing `name` field never makes
`get_available_models` raise. -/
theorem get_available_models_ok_of_shape
    (tags : ReqOutcome (List (Option String)))
    (h : tagsBodyMissingName tags = false) :
    ∃ ls, get_available_models tags = .ok ls := by
  cases tags with
  | reqError => exact ⟨[], rfl⟩
  | response status body =>
    cases hs : (status == 200) with
    | false => exact ⟨[], by simp [get_available_models, hs]⟩
    | true =>
      cases body with
      | none => exact ⟨[], by simp [get_available_models, hs]⟩
      | some entries =>
        cases hc : collectNames entries with
        | none =>
          exfalso
          simp [tagsBodyMissingName, hs, hc] at h
        | some ns => exact ⟨ns, by simp [get_available_models, hs, hc]⟩

/-- `get_available_models` raises only on a 200 tags reply with a model
entry whose `name` field is missing. -/
theorem get_available_models_error_shape
    (tags : ReqOutcome (List (Option String))) (e : String)
    (h : get_available_models tags = .error e) :
    tagsBodyMissingName tags = true := by
  cases hx : tagsBodyMissingName tags with
  | true => rfl
  | false =>
    obtain ⟨ls, hls⟩ := get_available_models_ok_of_shape tags hx
    rw [hls] at h
    exact Except.noConfusion h

/-- C1 counterexample: with the availability probe answering 200 and the
model probe answering 200 with the valid-JSON body `{"models": [{}]}`
(one entry, no `name` field), `model['name']` in `is_model_available`
(src/ollama_client.py:33) raises `KeyError('name')`, which the
`except requests.exceptions.RequestException` handler does not catch; the
call site (src/ollama_client.py:61) is outside the `try` of
`generate_subject_line`, so the exception propagates to the caller instead
of a subject string being returned — refuting the claim that
`generate_subject` never propagates an exception. -/
theorem generate_subject_raises_on_wrong_shape :
    generate_subject_line ollamaWrongShape "mistral" none none "Jane Doe"
      = .error (keyErrorStr "name") := rfl

/-- C1 amended: for every service behavior in which no 200 tags reply
carries a model entry missing its `name` field — which still includes the
service being unreachable, timing out, returning non-2xx statuses,
returning bodies that are not valid JSON, and every behavior of the
generation POST — `generate_subject_line` returns a subject string, either
the deterministic fallback or the cleaned validated generated subject,
and propagates no exception; conversely, the only exceptions that do
propagate to the caller arise from a 200 tags reply (to the model probe or
to the model-listing call on the model-missing path) with a model entry
missing its `name` field. -/
theorem generate_subject_no_raise_unless_malformed_names (b : OllamaBehavior)
    (model : String) (r c : Option String) (s : String) :
    (tagsBodyMissingName b.tagsModel = false →
      tagsBodyMissingName b.tagsList = false →
      generate_subject_line b model r c s = .ok (default_subject s c)
      ∨ ∃ raw, b.gen = .response 200 (some raw)
          ∧ generate_subject_line b model r c s = .ok (clean_subject (pyStripS raw))
          ∧ is_valid_subject (clean_subject (pyStripS raw)) = true)
    ∧ (∀ e, generate_subject_line b model r c s = .error e →
      tagsBodyMissingName b.tagsModel = true
      ∨ tagsBodyMissingName b.tagsList = true) := by
  constructor
  · intro h1 h2
    unfold generate_subject_line
    cases hrun : is_ollama_running b.tagsRun with
    | false => simp
    | true =>
      simp only [Bool.not_true, Bool.false_eq_true, if_false]
      obtain ⟨bb, hbb⟩ := is_model_available_ok_of_shape model b.tagsModel h1
      rw [hbb]
      cases bb with
      | false =>
        obtain ⟨ls, hls⟩ := get_available_models_ok_of_shape b.tagsList h2
        rw [hls]
        simp
      | true =>
        simp only [Bool.not_true, Bool.false_eq_true, if_false]
        cases hg : b.gen with
        | reqError => simp
        | response status body =>
          by_cases hstat : status = 200
          · subst hstat
            cases body with
            | none => simp
            | some raw =>
              by_cases hv : is_valid_subject (clean_subject (pyStripS raw)) = true
              · right
                exact ⟨raw, rfl, by simp [hv], hv⟩
              · left
                simp [hv]
          · left
            simp [hstat]
  · intro e he
    unfold generate_subject_line at he
    cases hrun : is_ollama_running b.tagsRun with
    | false =>
      rw [hrun] at he
      simp at he
    | true =>
      rw [hrun] at he
      simp only [Bool.not_true, Bool.false_eq_true, if_false] at he
      cases hma : is_model_available model b.tagsModel with
      | error e2 => exact Or.inl (is_model_available_error_shape model b.tagsModel e2 hma)
      | ok avail =>
        rw [hma] at he
        cases avail with
        | false =>
          cases hga : get_available_models b.tagsList with
          | error e3 => exact Or.inr (get_available_models_error_shape b.tagsList e3 hga)
          | ok ls =>
            rw [hga] at he
            simp at he
        | true =>
          cases hg : b.gen with
          | reqError =>
            rw [hg] at he
            simp at he
          | response status body =>
            rw [hg] at he
            by_cases hstat : status = 200
            · subst hstat
              cases body with
              | none => simp at he
              | some raw =>
                by_cases hv : is_valid_subject (clean_subject (pyStripS raw)) = true
                · simp [hv] at he
                · simp [hv] at he
            · simp [hstat] at he

/-- Witness for the amended C1 at a concrete behavior with no wrong-shaped
tags body (an unreachable service). -/
theorem generate_subject_no_raise_unless_malformed_names_witness :
    generate_subject_line ollamaDown "mistral" none none "Jane Doe"
      = .ok (default_subject "Jane Doe" none)
    ∨ ∃ raw, ollamaDown.gen = .response 200 (some raw)
        ∧ generate_subject_line ollamaDown "mistral" none none "Jane Doe"
          = .ok (clean_subject (pyStripS raw))
        ∧ is_valid_subject (clean_subject (pyStripS raw)) = true :=
  (generate_subject_no_raise_unless_malformed_names ollamaDown "mistral" none none
    "Jane Doe").1 rfl rfl

/-- C5: whenever the generation service is unreachable (the availability
probe's request raises), `generate_subject_line` returns exactly
`"Application for Position at {company} - {sender}"` when a company name is
present (a non-empty string, as supplied by the CLI, which maps a blank
entry to `None`) and differs from the generic default
`"your organization"`, and exactly
`"Software Engineer Application - {sender}"` otherwise. -/
theorem generate_subject_fallback_on_unreachable (b : OllamaBehavior)
    (model : String) (r c : Option String) (s : String)
    (h : b.tagsRun = .reqError) :
    (∀ t, c = some t → t ≠ "" → t ≠ "your organization" →
      generate_subject_line b model r c s
        = .ok ("Application for Position at " ++ t ++ " - " ++ s))
    ∧ ((c = none ∨ c = some "" ∨ c = some "your organization") →
      generate_subject_line b model r c s
        = .ok ("Software Engineer Application - " ++ s)) := by
  have key : generate_subject_line b model r c s = .ok (default_subject s c) := by
    unfold generate_subject_line
    rw [h]
    simp [is_ollama_running]
  constructor
  · intro t hc ht horg
    subst hc
    rw [key]
    unfold default_subject
    simp [pyTruthyStr, ht, horg]
  · intro hc
    rw [key]
    rcases hc with hc | hc | hc <;> subst hc <;> simp [default_subject, pyTruthyStr]

/-- Witness for C5 at concrete inputs: with the service unreachable, the
company branch and the no-company branch each produce the claimed string. -/
theorem generate_subject_fallback_on_unreachable_witness :
    generate_subject_line ollamaDown "mistral" none (some "Acme") "Jane Doe"
      = .ok "Application for Position at Acme - Jane Doe"
    ∧ generate_subject_line ollamaDown "mistral" none none "Jane Doe"
      = .ok "Software Engineer Application - Jane Doe" :=
  ⟨(generate_subject_fallback_on_unreachable ollamaDown "mistral" none (some "Acme")
      "Jane Doe" rfl).1 "Acme" rfl (by decide) (by decide),
   (generate_subject_fallback_on_unreachable ollamaDown "mistral" none none
      "Jane Doe" rfl).2 (Or.inl rfl)⟩

/-- C7: any raw subject whose cleaned form exceeds 80 characters is returned
as the first 77 characters of the cleaned form followed by `"..."`, hence
has length at most 80 and ends with `"..."`. -/
theorem clean_subject_truncation (s : String)
    (h : 80 < (clean_core s.toList).length) :
    clean_subject s = String.mk ((clean_core s.toList).take 77 ++ ellipsis)
    ∧ (clean_subject s).length ≤ 80
    ∧ ellipsis <:+ (clean_subject s).toList := by
  have hs : s ≠ "" := by
    intro he
    subst he
    exact absurd h (by decide)
  have heq : clean_subject s = String.mk ((clean_core s.toList).take 77 ++ ellipsis) := by
    unfold clean_subject
    rw [if_neg hs, if_pos h]
  refine ⟨heq, ?_, ?_⟩
  · rw [heq]
    show ((clean_core s.toList).take 77 ++ ellipsis).length ≤ 80
    have h3 : ellipsis.length = 3 := rfl
    rw [List.length_append, List.length_take, h3]
    omega
  · rw [heq]
    show ellipsis <:+ ((clean_core s.toList).take 77 ++ ellipsis)
    exact List.suffix_append _ _

/-- Witness for C7: a raw subject of 85 `a`s cleans to itself (length 85),
and the returned subject is truncated to 80 characters ending in the
ellipsis. -/
theorem clean_subject_truncation_witness :
    clean_subject (String.mk (List.replicate 85 'a'))
      = String.mk ((clean_core (String.mk (List.replicate 85 'a')).toList).take 77 ++ ellipsis)
    ∧ (clean_subject (String.mk (List.replicate 85 'a'))).length ≤ 80
    ∧ ellipsis <:+ (clean_subject (String.mk (List.replicate 85 'a'))).toList :=
  clean_subject_truncation (String.mk (List.replicate 85 'a')) (by decide)

/-- Every branch of `send_recruitment_email` with a loaded configuration
ends in `finishWithLog`. -/
theorem send_is_finishWithLog (c : Config) (env : SendEnv) (a : SendArgs)
    (st : LogFileState) :
    ∃ cal r n u, send_recruitment_email (some c) env a st
      = finishWithLog st env.logWriteOk cal r n u := by
  have hb : send_recruitment_email (some c) env a st
      = send_recruitment_email_body c env a st := rfl
  rw [hb]
  unfold send_recruitment_email_body
  cases sendSubject c env a with
  | error e => exact ⟨_, _, _, _, rfl⟩
  | ok subj =>
    cases renderTemplate c.email_template (renderCtx c a) with
    | error k => exact ⟨_, _, _, _, rfl⟩
    | ok body =>
      cases env.attach with
      | notFound => exact ⟨_, _, _, _, rfl⟩
      | otherError m => exact ⟨_, _, _, _, rfl⟩
      | ok => exact ⟨_, _, _, _, rfl⟩

/-- C2: every send attempt with a loaded configuration — whether it fails at
template rendering, attachment creation, authentication or transmission, or
succeeds — makes exactly one `log_email_activity` call, and (when the log
write succeeds) appends exactly one ActivityRecord to the log. -/
theorem send_logs_exactly_one_record (c : Config) (o : OllamaBehavior)
    (att : AttachRes) (sm : SmtpSession) (now : String) (w : Bool)
    (a : SendArgs) (l : List ActivityRecord) :
    (send_recruitment_email (some c) ⟨o, att, sm, now, w⟩ a (.content l)).logCalls.length = 1
    ∧ ∃ e, (send_recruitment_email (some c) ⟨o, att, sm, now, true⟩ a (.content l)).logState
        = .content (l ++ [e]) := by
  obtain ⟨cal, r, n, u, h1⟩ := send_is_finishWithLog c ⟨o, att, sm, now, w⟩ a (.content l)
  obtain ⟨cal2, r2, n2, u2, h2⟩ := send_is_finishWithLog c ⟨o, att, sm, now, true⟩ a (.content l)
  constructor
  · rw [h1]; rfl
  · exact ⟨entryOf cal2, by rw [h2]; rfl⟩

/-- C10: with no configuration loaded, `send_recruitment_email` returns
`False` immediately: the log file is untouched, no `log_email_activity`
call is made, no SMTP connection is attempted, and the generation service
is not consulted. -/
theorem send_without_config_is_noop (env : SendEnv) (a : SendArgs)
    (st : LogFileState) :
    send_recruitment_email none env a st
      = { returned := false, logState := st, logCalls := [], smtpAttempts := 0,
          ollamaUsed := false } := rfl

/-- C4 counterexample: when SMTP authentication fails, `_send_via_smtp`
returns after establishing a connection without ever closing it
(no handler calls `server.quit()`), refuting "the connection is always
closed (success or failure) before returning". -/
theorem smtp_not_closed_on_auth_failure :
    (send_via_smtp smtpAuthFail).connected = true
    ∧ (send_via_smtp smtpAuthFail).success = false
    ∧ (send_via_smtp smtpAuthFail).closed = false := ⟨rfl, rfl, rfl⟩

/-- C4 amended: every `_send_via_smtp` call makes exactly one SMTP
connection attempt (no internal retry), and the connection is closed before
returning exactly when the whole delivery succeeded; on every failure path
after the connection is established it is left unclosed. -/
theorem smtp_single_attempt_closed_iff_success (s : SmtpSession) :
    (send_via_smtp s).connectAttempts = 1
    ∧ (send_via_smtp s).closed = (send_via_smtp s).success := by
  rcases s with ⟨c, st, lg, sd, q⟩
  cases c <;> cases st <;> cases lg <;> cases sd <;> cases q <;> exact ⟨rfl, rfl⟩

/-- C3 counterexample: with the SMTP server rejecting the recipients, the
appended ActivityRecord's error field is the generic string
`"SMTP sending failed"` — identical to the record produced when
authentication fails instead — so the outcome does not record the
recipient-rejection category; the category is only printed to the
console. -/
theorem smtp_error_field_generic_on_recipient_rejection :
    (send_recruitment_email (some cfg0) envRR args0 .absent).logCalls.map
        (fun c => c.error_msg) = [some "SMTP sending failed"]
    ∧ (send_recruitment_email (some cfg0) envRR args0 .absent).logCalls
      = (send_recruitment_email (some cfg0) envAuth args0 .absent).logCalls
    ∧ (send_via_smtp smtpRR).console = [recipientRejectedMsg]
    ∧ (send_via_smtp smtpAuthFail).console = [authFailedMsg] :=
  ⟨rfl, rfl, rfl, rfl⟩

/-- C3 amended: when the SMTP server rejects the recipient address, the
delivery outcome is `False` and the single appended ActivityRecord has
`success = false` with the non-null generic error
`"SMTP sending failed"`; the recipient-rejection category is printed to the
console by `_send_via_smtp` but not recorded in the outcome.  As with the
render hypothesis, the subject hypothesis is inherent: SMTP is only reached
after the subject step and the render step of the `try` block complete. -/
theorem smtp_recipient_rejection_outcome (c : Config) (o : OllamaBehavior)
    (now : String) (q w : Bool) (a : SendArgs) (l : List ActivityRecord)
    (subj body : String)
    (hsubj : sendSubject c ⟨o, .ok, ⟨true, true, .ok, .recipientsRefused, q⟩, now, w⟩ a
      = .ok subj)
    (hrender : renderTemplate c.email_template (renderCtx c a) = .ok body) :
    (send_recruitment_email (some c)
        ⟨o, .ok, ⟨true, true, .ok, .recipientsRefused, q⟩, now, w⟩ a
        (.content l)).returned = false
    ∧ (∃ cal, (send_recruitment_email (some c)
          ⟨o, .ok, ⟨true, true, .ok, .recipientsRefused, q⟩, now, w⟩ a
          (.content l)).logCalls = [cal]
        ∧ cal.success = false ∧ cal.error_msg = some "SMTP sending failed")
    ∧ (send_via_smtp ⟨true, true, .ok, .recipientsRefused, q⟩).console
        = [recipientRejectedMsg] := by
  have hb : send_recruitment_email (some c)
        ⟨o, .ok, ⟨true, true, .ok, .recipientsRefused, q⟩, now, w⟩ a (.content l)
      = send_recruitment_email_body c
        ⟨o, .ok, ⟨true, true, .ok, .recipientsRefused, q⟩, now, w⟩ a (.content l) := rfl
  rw [hb]
  unfold send_recruitment_email_body
  rw [hsubj, hrender]
  exact ⟨rfl, ⟨_, rfl, rfl, rfl⟩, rfl⟩

/-- Witness for the amended C3 at concrete inputs. -/
theorem smtp_recipient_rejection_outcome_witness :
    (send_recruitment_email (some cfg0)
        ⟨ollamaDown, .ok, ⟨true, true, .ok, .recipientsRefused, true⟩,
         "2024-01-01T00:00:00", true⟩ args0 (.content [])).returned = false
    ∧ (∃ cal, (send_recruitment_email (some cfg0)
          ⟨ollamaDown, .ok, ⟨true, true, .ok, .recipientsRefused, true⟩,
           "2024-01-01T00:00:00", true⟩ args0 (.content [])).logCalls = [cal]
        ∧ cal.success = false ∧ cal.error_msg = some "SMTP sending failed")
    ∧ (send_via_smtp ⟨true, true, .ok, .recipientsRefused, true⟩).console
        = [recipientRejectedMsg] :=
  smtp_recipient_rejection_outcome cfg0 ollamaDown "2024-01-01T00:00:00" true true
    args0 [] "Software Engineer Application - Jane Doe" "Hello Hiring Manager" rfl rfl

/-- C6: a `person_only` rendering context supplies no company key, so a
template containing a `{company}` placeholder fails to render with a
missing-placeholder error naming an unsupplied key; a template all of whose
placeholders are supplied always renders; and in the pipeline the failure
is surfaced to the caller: `send_recruitment_email` returns `False` and
logs one failed ActivityRecord with a non-null error rather than silently
ignoring it. -/
theorem person_only_missing_company_surfaced (parts : List TmplPart)
    (ctx : List (String × String)) (c : Config) (env : SendEnv) (a : SendArgs)
    (st : LogFileState) :
    ("company" ∈ phKeys parts → List.lookup "company" ctx = none →
      ∃ k, renderTemplate parts ctx = .error k ∧ List.lookup k ctx = none)
    ∧ ((∀ k ∈ phKeys parts, (List.lookup k ctx).isSome) →
      ∃ s, renderTemplate parts ctx = .ok s)
    ∧ (c.template_preference = some "person_only" →
      "company" ∈ phKeys c.email_template →
      (send_recruitment_email (some c) env a st).returned = false
      ∧ ∃ cal, (send_recruitment_email (some c) env a st).logCalls = [cal]
          ∧ cal.success = false ∧ cal.error_msg.isSome) := by
  refine ⟨fun h1 h2 => renderTemplate_error_of_missing parts ctx "company" h1 h2,
    fun h => renderTemplate_ok_of_supplied parts ctx h, fun hpref hmem => ?_⟩
  have hctx : List.lookup "company" (renderCtx c a) = none := by
    unfold renderCtx
    rw [if_pos hpref]
    rfl
  obtain ⟨k, hk, hknone⟩ :=
    renderTemplate_error_of_missing c.email_template (renderCtx c a) "company" hmem hctx
  have hb : send_recruitment_email (some c) env a st
      = send_recruitment_email_body c env a st := rfl
  rw [hb]
  unfold send_recruitment_email_body
  cases hs : sendSubject c env a with
  | error e => exact ⟨rfl, ⟨_, rfl, rfl, rfl⟩⟩
  | ok subj =>
    rw [hk]
    exact ⟨rfl, ⟨_, rfl, rfl, rfl⟩⟩

/-- Witness for C6 at concrete inputs: the failing render, the succeeding
render, and the pipeline surfacing the failure. -/
theorem person_only_missing_company_surfaced_witness :
    (∃ k, renderTemplate [TmplPart.ph "company"] [("name", "Bob")] = .error k
        ∧ List.lookup k [("name", "Bob")] = none)
    ∧ (∃ s, renderTemplate [TmplPart.ph "name"] [("name", "Bob")] = .ok s)
    ∧ ((send_recruitment_email (some cfgBad) envRR args0 .absent).returned = false
      ∧ ∃ cal, (send_recruitment_email (some cfgBad) envRR args0 .absent).logCalls = [cal]
          ∧ cal.success = false ∧ cal.error_msg.isSome) :=
  ⟨(person_only_missing_company_surfaced [TmplPart.ph "company"] [("name", "Bob")]
      cfgBad envRR args0 .absent).1 (by decide) rfl,
   (person_only_missing_company_surfaced [TmplPart.ph "name"] [("name", "Bob")]
      cfgBad envRR args0 .absent).2.1 (by decide),
   (person_only_missing_company_surfaced [TmplPart.ph "name"] [("name", "Bob")]
      cfgBad envRR args0 .absent).2.2 rfl (by decide)⟩

/-- C8: appending N records by successive `log_email_activity` calls to an
empty (or absent) log and reading the log back yields exactly those N
records in insertion order, and each stored record carries the timestamp
and success flag it was built from. -/
theorem log_append_read_roundtrip (cs : List LogCall) (c0 : LogCall) (cal : LogCall) :
    readLog (appendAll (.content []) cs) = some (cs.map entryOf)
    ∧ readLog (appendAll .absent (c0 :: cs)) = some ((c0 :: cs).map entryOf)
    ∧ (cs.map entryOf).length = cs.length
    ∧ (entryOf cal).timestamp = cal.now ∧ (entryOf cal).success = cal.success := by
  refine ⟨?_, ?_, by simp, rfl, rfl⟩
  · rw [appendAll_content]
    rfl
  · have h0 : appendAll .absent (c0 :: cs)
        = appendAll (.content ([] ++ [entryOf c0])) cs := rfl
    rw [h0, appendAll_content]
    simp [readLog]

/-- C9: the log-append operation is total (never raises outward): a parse
failure of the existing log (a corrupt file) is tolerated by treating prior
content as empty, and a failed rewrite only reports (returns the
printed-warning flag) and leaves the file untouched instead of unwinding
the send pipeline. -/
theorem log_append_total_tolerant (st : LogFileState) (cal : LogCall)
    (l : List ActivityRecord) :
    log_email_activity st false cal = (st, true)
    ∧ log_email_activity .corrupt true cal = (.content [entryOf cal], false)
    ∧ log_email_activity .absent true cal = (.content [entryOf cal], false)
    ∧ log_email_activity (.content l) true cal = (.content (l ++ [entryOf cal]), false) := by
  refine ⟨?_, rfl, rfl, rfl⟩
  cases st <;> rfl
